import Mathlib

/-!
Verification of the playback timing and session-state model of a Discord
audio bot (cogs/music.py, cogs/speak.py).  Times and offsets are embedded
as rationals; the monotonic clock is an explicit parameter.  Python dicts
holding playback metadata become structures with optional fields; the
external collaborators (media resolver, transcoder, voice transport,
messaging surface) are modelled as explicit inputs and emitted actions.
-/

namespace Bonzi

/-- Whitespace characters removed by the Python str.strip default. -/
def isWS (c : Char) : Bool :=
  c = ' ' || c = '\t' || c = '\n' || c = '\r' || c = '\x0b' || c = '\x0c'

/-- Strip leading and trailing whitespace, as Python str.strip. -/
def trimWS (l : List Char) : List Char :=
  ((l.dropWhile isWS).reverse.dropWhile isWS).reverse

/-- Does pat occur as a contiguous segment of s?  Models the Python
substring containment test. -/
def containsSeg (pat : List Char) : List Char → Bool
  | [] => pat.isEmpty
  | c :: t => pat.isPrefixOf (c :: t) || containsSeg pat t

/-- Music._is_resumable_protocol: an absent or empty protocol string is
treated as resumable; otherwise the lowercased protocol must not contain
m3u8, hls or rtmp. -/
def _is_resumable_protocol (protocol : Option String) : Bool :=
  match protocol with
  | none => true
  | some p =>
    if p = "" then true
    else
      let l := p.toList.map Char.toLower
      !(containsSeg "m3u8".toList l || containsSeg "hls".toList l ||
        containsSeg "rtmp".toList l)

/-- The per-guild playback metadata dict written by _play_track,
resume_from_snapshot, pause and resume.  Every writer stores all of these
keys, so only the keys that can hold None are optional here. -/
structure PlaybackMeta where
  webpage_url : Option String
  title : Option String
  duration : Option ℚ
  started_at : Option ℚ
  seek_base : ℚ
  paused_at : Option ℚ
  is_live : Bool
  protocol : Option String
  extractor : Option String
  id : Option String
deriving DecidableEq

/-- The resume snapshot dict returned by Music.build_resume_snapshot. -/
structure Snapshot where
  webpage_url : Option String
  title : Option String
  duration : Option ℚ
  offset : ℚ
  resumable : Bool
  extractor : Option String
  id : Option String
deriving DecidableEq

/-- Music.build_resume_snapshot.  vcPresent models ctx.voice_client being
non-None; pb models self._pb.get(guild.id); now is the monotonic clock
reading taken inside the function. -/
def build_resume_snapshot (vcPresent : Bool) (pb : Option PlaybackMeta)
    (now : ℚ) : Option Snapshot :=
  match pb with
  | none => none
  | some meta =>
    if !vcPresent then none
    else
      match meta.started_at with
      | none => none
      | some started_at =>
        let elapsed : ℚ :=
          match meta.paused_at with
          | some paused_at => max 0 (paused_at - started_at)
          | none => max 0 (now - started_at)
        let offset0 := meta.seek_base + elapsed
        let offset : ℚ :=
          match meta.duration with
          | some d => max 0 (min offset0 (d - 1/4))
          | none => offset0
        some { webpage_url := meta.webpage_url
               title := meta.title
               duration := meta.duration
               offset := offset
               resumable := (!meta.is_live) && _is_resumable_protocol meta.protocol
               extractor := meta.extractor
               id := meta.id }

/-- The elapsed-time estimate of the Time Model, used to state C1. -/
def elapsedOf (meta : PlaybackMeta) (started_at now : ℚ) : ℚ :=
  match meta.paused_at with
  | some paused_at => max 0 (paused_at - started_at)
  | none => max 0 (now - started_at)

/-- C1 counterexample.  A metadata record with a negative seekBase and
unknown duration yields a snapshot offset of -1: the code applies no
clamp at all in the unknown-duration branch, so the result is not
confined to [0, ∞) as the claim states. -/
theorem c1_counterexample :
    (build_resume_snapshot true
      (some { webpage_url := some "u", title := some "t", duration := none,
              started_at := some 0, seek_base := -1, paused_at := some 0,
              is_live := false, protocol := none, extractor := none,
              id := none }) 5).map Snapshot.offset = some (-1) ∧
    ¬ (0 : ℚ) ≤ -1 := by
  constructor
  · simp only [build_resume_snapshot, Option.map]
    norm_num
  · norm_num

/-- C1 amended: for every metadata record with a recorded start, the
snapshot offset is seekBase plus the elapsed time (the elapsed difference
clamped below at 0); with a known duration the sum is clamped to
[0, duration - 1/4]; with an unknown duration no clamp is applied, and the
result lies in [0, ∞) whenever seekBase is nonnegative. -/
theorem c1_offset_formula (meta : PlaybackMeta) (now st : ℚ)
    (hst : meta.started_at = some st) (hsb : 0 ≤ meta.seek_base) :
    ∃ snap, build_resume_snapshot true (some meta) now = some snap ∧
      (∀ d, meta.duration = some d →
        snap.offset = max 0 (min (meta.seek_base + elapsedOf meta st now) (d - 1/4))) ∧
      (meta.duration = none →
        snap.offset = meta.seek_base + elapsedOf meta st now ∧ 0 ≤ snap.offset) := by
  have helapsed : (0 : ℚ) ≤ elapsedOf meta st now := by
    unfold elapsedOf
    cases meta.paused_at <;> simp
  refine ⟨{ webpage_url := meta.webpage_url, title := meta.title,
            duration := meta.duration,
            offset := match meta.duration with
              | some d => max 0 (min (meta.seek_base + elapsedOf meta st now) (d - 1/4))
              | none => meta.seek_base + elapsedOf meta st now,
            resumable := (!meta.is_live) && _is_resumable_protocol meta.protocol,
            extractor := meta.extractor, id := meta.id }, ?_, ?_, ?_⟩
  · simp only [build_resume_snapshot, hst, elapsedOf, Bool.not_true,
      Bool.false_eq_true, if_false]
  · intro d hd
    simp only [hd]
  · intro hd
    simp only [hd]
    exact ⟨trivial, add_nonneg hsb helapsed⟩

/-- C1 witness: the amended formula evaluated at a concrete paused record
with known duration 100, seekBase 30 and pause 10 seconds in. -/
theorem c1_offset_formula_witness :
    ∃ snap, build_resume_snapshot true
      (some { webpage_url := some "u", title := some "t", duration := some 100,
              started_at := some 2, seek_base := 30, paused_at := some 12,
              is_live := false, protocol := none, extractor := none,
              id := none }) 50 = some snap ∧
      snap.offset = 40 := by
  obtain ⟨snap, hs, hd, -⟩ :=
    c1_offset_formula
      { webpage_url := some "u", title := some "t", duration := some 100,
        started_at := some 2, seek_base := 30, paused_at := some 12,
        is_live := false, protocol := none, extractor := none, id := none }
      50 2 rfl (by norm_num)
  refine ⟨snap, hs, ?_⟩
  rw [hd 100 rfl]
  simp only [elapsedOf]
  rw [show max (0:ℚ) (12 - 2) = 10 by norm_num [max_def]]
  rw [min_def, max_def]
  norm_num

/-- The voice transport state exposed by the discord voice client:
is_playing, is_paused, or neither. -/
inductive Transport where
  | idle
  | playing
  | paused
deriving DecidableEq

/-- A queue entry (the Track dataclass). -/
structure Track where
  query : String
  webpage_url : String
  title : String
  duration : Option ℚ
  is_live : Bool
  extractor : Option String
  id : Option String
deriving DecidableEq

/-- The outcome of a successful media resolution (yt_dlp extraction
combined with _choose_stream_url): the fields of the info dict the code
reads, plus the protocol of the chosen stream endpoint.  A key present
with value None is conflated with an absent key. -/
structure ResolvedInfo where
  webpage_url : Option String
  title : Option String
  duration : Option ℚ
  is_live : Option Bool
  protocol : Option String
  extractor : Option String
  id : Option String
deriving DecidableEq

/-- The messages the cogs send back to the conversation, by identity. -/
inductive Msg where
  | joinVoiceFirst
  | notConnected
  | nothingPlaying
  | notPaused
  | nothingToStop
  | pausedMsg
  | resumedMsg
  | stoppedMsg
  | nothingToSeek
  | cannotCapture
  | notSeekableLive
  | pctUnknownDuration
  | pctOutOfRange
  | invalidTime
  | invalidValue
  | alreadyNear
  | notConnectedResume
  | nothingToResume
  | resumeFailed
  | degradedStart
  | resumedAt
  | voiceError
  | couldNotCaptureSpeak
  | willNotInterrupt
  | couldNotGenerate
  | spokenText
  | queuedTracks
  | nowPlaying
deriving DecidableEq

/-- The externally visible effects of one command invocation, in order. -/
inductive Action where
  | send (m : Msg)
  | connect
  | stopTransport
  | pauseTransport
  | resumeTransport
  | startPlayback (offset : Option ℚ)
  | playTTS
  | scheduleResume (snap : Snapshot)
deriving DecidableEq

/-- The per-guild mutable state: voice connection, transport state, the
upcoming queue, the playback metadata and the advance lock. -/
structure GuildState where
  connected : Bool
  transport : Transport
  queue : List Track
  pb : Option PlaybackMeta
  lockHeld : Bool
deriving DecidableEq

/-- Python x or default for an optional string: None and the empty string
both fall through to the default. -/
def pyOrStr (x : Option String) (dflt : String) : String :=
  match x with
  | some s => if s = "" then dflt else s
  | none => dflt

/-- Music._play_track on the success path: re-extracts the track (the
extraction outcome is the info parameter), starts the stream with no
offset, and fully replaces the playback metadata.  Extraction or probe
failures raise in the source and perform none of these effects. -/
def play_track (s : GuildState) (track : Track) (info : ResolvedInfo)
    (now : ℚ) : GuildState × List Action :=
  let title := pyOrStr info.title (pyOrStr (some track.title) "Unknown title")
  let duration : Option ℚ :=
    match info.duration with
    | some d => some d
    | none => track.duration
  let is_live := info.is_live.getD track.is_live
  let meta : PlaybackMeta :=
    { webpage_url := some (pyOrStr info.webpage_url track.webpage_url)
      title := some title
      duration := duration
      started_at := some now
      seek_base := 0
      paused_at := none
      is_live := is_live
      protocol := info.protocol
      extractor := info.extractor
      id := info.id }
  ({ s with transport := .playing, pb := some meta },
   [.startPlayback none, .send .nowPlaying])

/-- The body of Music._advance_queue once the lock is held: bail out if
the guild is gone or disconnected, if the transport is busy, or if the
queue is empty; otherwise pop the front track and play it. -/
def advance_locked (s : GuildState) (info : ResolvedInfo) (now : ℚ) :
    GuildState × List Action :=
  if !s.connected then (s, [])
  else if s.transport = .playing || s.transport = .paused then (s, [])
  else
    match s.queue with
    | [] => (s, [])
    | next :: rest => play_track { s with queue := rest } next info now

/-- Music._advance_queue: a no-op when the per-guild lock is already held
(re-entrancy guard for duplicate completion callbacks); otherwise runs
the guarded body with the lock held and releases it. -/
def _advance_queue (s : GuildState) (info : ResolvedInfo) (now : ℚ) :
    GuildState × List Action :=
  if s.lockHeld then (s, [])
  else
    let r := advance_locked { s with lockHeld := true } info now
    ({ r.fst with lockHeld := false }, r.snd)

/-- Music.pause: requires a connection and a playing transport; pauses
the transport and records paused_at on the metadata when present. -/
def pause_step (s : GuildState) (now : ℚ) : GuildState × List Action :=
  if !s.connected then (s, [.send .notConnected])
  else if s.transport = .playing then
    let pb' := match s.pb with
      | some m => some { m with paused_at := some now }
      | none => none
    ({ s with transport := .paused, pb := pb' },
     [.pauseTransport, .send .pausedMsg])
  else (s, [.send .nothingPlaying])

/-- Music.resume: requires a connection and a paused transport; folds the
paused interval into seek_base, resets started_at, clears paused_at, and
resumes the transport. -/
def resume_step (s : GuildState) (now : ℚ) : GuildState × List Action :=
  if !s.connected then (s, [.send .notConnected])
  else if s.transport = .paused then
    let pb' := match s.pb with
      | some m =>
        match m.paused_at, m.started_at with
        | some paused_at, some started_at =>
          some { m with
                 seek_base := m.seek_base + max 0 (paused_at - started_at)
                 started_at := some now
                 paused_at := none }
        | _, _ => some { m with started_at := some now, paused_at := none }
      | none => none
    ({ s with transport := .playing, pb := pb' },
     [.resumeTransport, .send .resumedMsg])
  else (s, [.send .notPaused])

/-- Music.stop: stops an active transport; the playback metadata and the
queue are left untouched. -/
def stop_step (s : GuildState) : GuildState × List Action :=
  if !s.connected then (s, [.send .notConnected])
  else if s.transport = .playing || s.transport = .paused then
    ({ s with transport := .idle }, [.stopTransport, .send .stoppedMsg])
  else (s, [.send .nothingToStop])

/-- Music.resume_from_snapshot.  author_in_voice models the caller having
a voice channel to join; resolve is the outcome of re-extracting the
snapshot reference (none models an extraction or stream-choice failure);
play_ok models the probe and transport play call succeeding. -/
def resume_from_snapshot (s : GuildState) (author_in_voice : Bool)
    (resolve : Option ResolvedInfo) (play_ok : Bool) (now : ℚ)
    (snap : Snapshot) : GuildState × List Action :=
  if !s.connected && !author_in_voice then (s, [.send .notConnectedResume])
  else
    let connActs : List Action := if !s.connected then [.connect] else []
    let s := if !s.connected then { s with connected := true } else s
    match snap.webpage_url with
    | none => (s, connActs ++ [.send .nothingToResume])
    | some url =>
      if url = "" then (s, connActs ++ [.send .nothingToResume])
      else
        match resolve with
        | none => (s, connActs ++ [.send .resumeFailed])
        | some info =>
          let is_live := info.is_live.getD false
          let resumable := (!is_live) && _is_resumable_protocol info.protocol
          let offset := if resumable then snap.offset else 0
          let warnActs : List Action :=
            if resumable then [] else [.send .degradedStart]
          if !play_ok then (s, connActs ++ warnActs ++ [.send .voiceError])
          else
            let meta : PlaybackMeta :=
              { webpage_url := some (pyOrStr info.webpage_url url)
                title := some (pyOrStr info.title "Unknown title")
                duration := info.duration
                started_at := some now
                seek_base := offset
                paused_at := none
                is_live := is_live
                protocol := info.protocol
                extractor := info.extractor
                id := info.id }
            ({ s with transport := .playing, pb := some meta },
             connActs ++ warnActs ++ [.startPlayback (some offset), .send .resumedAt])

/-- The play command: connect if needed, enqueue the extracted tracks,
and when the transport is neither playing nor paused pop the front of the
queue and start it.  added models the tracks returned by extraction (an
empty list models an extraction failure, which only reports). -/
def play_cmd (s : GuildState) (author_in_voice : Bool) (added : List Track)
    (info : ResolvedInfo) (now : ℚ) : GuildState × List Action :=
  if !author_in_voice then (s, [.send .joinVoiceFirst])
  else
    let connActs : List Action := if !s.connected then [.connect] else []
    let s := if !s.connected then { s with connected := true } else s
    if added.isEmpty then (s, connActs)
    else
      let s := { s with queue := s.queue ++ added }
      if s.transport = .playing || s.transport = .paused then
        (s, connActs ++ [.send .queuedTracks])
      else
        match s.queue with
        | [] => (s, connActs)
        | first :: rest =>
          let r := play_track { s with queue := rest } first info now
          (r.fst, connActs ++ r.snd)

/-- A concrete track used by the concrete-state theorems. -/
def exTrack : Track :=
  { query := "q", webpage_url := "w", title := "Song", duration := some 100,
    is_live := false, extractor := none, id := none }

/-- A concrete resolution outcome with a seekable https protocol. -/
def exInfo : ResolvedInfo :=
  { webpage_url := some "w", title := some "Song", duration := some 100,
    is_live := some false, protocol := some "https", extractor := none,
    id := none }

/-- The initial per-guild state: disconnected, idle, empty queue, no
metadata, lock free. -/
def init0 : GuildState :=
  { connected := false, transport := .idle, queue := [], pb := none,
    lockHeld := false }

/-- A concrete metadata record for a seekable track of duration 100 that
started at 2 with 30 seconds of earlier segments. -/
def exMeta : PlaybackMeta :=
  { webpage_url := some "u", title := some "t", duration := some 100,
    started_at := some 2, seek_base := 30, paused_at := none,
    is_live := false, protocol := none, extractor := none, id := none }

/-- exMeta with a pause recorded at 4. -/
def exMetaPaused : PlaybackMeta := { exMeta with paused_at := some 4 }

/-- A connected guild state currently playing exMeta. -/
def exPlayingSt : GuildState :=
  { connected := true, transport := .playing, queue := [], pb := some exMeta,
    lockHeld := false }

/-- A connected guild state paused on exMetaPaused. -/
def exPausedSt : GuildState :=
  { connected := true, transport := .paused, queue := [],
    pb := some exMetaPaused, lockHeld := false }

/-- A concrete resumable snapshot at offset 3. -/
def exSnap : Snapshot :=
  { webpage_url := some "w", title := some "t", duration := some 100,
    offset := 3, resumable := true, extractor := none, id := none }

/-- C2: a duplicate invocation of the queue-advance step while the lock
is held is a pure no-op, and under duplicate firing for one stop event
exactly one track is popped and started: the first call pops the head
and leaves the transport playing, a duplicate arriving while the first
holds the lock returns unchanged, and a duplicate arriving after the
first completes is blocked by the transport re-check. -/
theorem c2_advance_idempotent (s : GuildState) (i i' : ResolvedInfo)
    (n n' : ℚ) (t : Track) (rest : List Track)
    (hlock : s.lockHeld = false) (hconn : s.connected = true)
    (hidle : s.transport = .idle) (hq : s.queue = t :: rest) :
    _advance_queue { s with lockHeld := true } i' n' =
      ({ s with lockHeld := true }, []) ∧
    (_advance_queue s i n).fst.queue = rest ∧
    (_advance_queue s i n).fst.transport = .playing ∧
    (_advance_queue s i n).fst.lockHeld = false ∧
    _advance_queue (_advance_queue s i n).fst i' n' =
      ((_advance_queue s i n).fst, []) := by
  rcases s with ⟨c, tr, q, pb, lk⟩
  simp only at hlock hconn hidle hq
  subst hlock hconn hidle hq
  refine ⟨rfl, rfl, rfl, rfl, rfl⟩

/-- C2 witness: the idempotent-advance property at a concrete idle state
with one queued track. -/
theorem c2_advance_idempotent_witness :
    _advance_queue { connected := true, transport := .idle,
                     queue := [exTrack], pb := none, lockHeld := true }
        exInfo 7 =
      ({ connected := true, transport := .idle, queue := [exTrack],
         pb := none, lockHeld := true }, []) ∧
    (_advance_queue { connected := true, transport := .idle,
                      queue := [exTrack], pb := none, lockHeld := false }
        exInfo 3).fst.queue = [] ∧
    (_advance_queue { connected := true, transport := .idle,
                      queue := [exTrack], pb := none, lockHeld := false }
        exInfo 3).fst.transport = .playing ∧
    (_advance_queue { connected := true, transport := .idle,
                      queue := [exTrack], pb := none, lockHeld := false }
        exInfo 3).fst.lockHeld = false ∧
    _advance_queue
      (_advance_queue { connected := true, transport := .idle,
                        queue := [exTrack], pb := none, lockHeld := false }
          exInfo 3).fst exInfo 7 =
      ((_advance_queue { connected := true, transport := .idle,
                         queue := [exTrack], pb := none, lockHeld := false }
          exInfo 3).fst, []) :=
  c2_advance_idempotent
    { connected := true, transport := .idle, queue := [exTrack], pb := none,
      lockHeld := false }
    exInfo exInfo 3 7 exTrack [] rfl rfl rfl rfl

/-- C4: pausing at snapshot offset X and resuming at a later instant t2
yields, for a snapshot taken at the resume instant, exactly offset X:
resume folds the paused interval into seek_base, resets started_at to t2
and clears paused_at, so the elapsed term is zero at t2. -/
theorem c4_pause_resume_roundtrip (s : GuildState) (m : PlaybackMeta)
    (st t1 t2 : ℚ) (hc : s.connected = true) (ht : s.transport = .playing)
    (hm : s.pb = some m) (hst : m.started_at = some st) :
    ∃ X,
      (build_resume_snapshot true (pause_step s t1).fst.pb t1).map
          Snapshot.offset = some X ∧
      (build_resume_snapshot true
          (resume_step (pause_step s t1).fst t2).fst.pb t2).map
          Snapshot.offset = some X := by
  rcases s with ⟨c, tr, q, pb, lk⟩
  simp only at hc ht hm
  subst hc ht hm
  refine ⟨match m.duration with
    | some d => max 0 (min (m.seek_base + max 0 (t1 - st)) (d - 1/4))
    | none => m.seek_base + max 0 (t1 - st), ?_, ?_⟩
  · simp only [pause_step, resume_step, build_resume_snapshot, hst,
      Option.map]
    rfl
  · simp only [pause_step, resume_step, build_resume_snapshot, hst,
      Option.map, sub_self, max_self, add_zero]
    rcases m.duration with _ | d <;> simp [max_self, add_zero]

/-- C4 witness: the concrete playing record paused at 12 and resumed at
50 keeps its snapshot offset. -/
theorem c4_pause_resume_roundtrip_witness :
    ∃ X,
      (build_resume_snapshot true (pause_step exPlayingSt 12).fst.pb 12).map
          Snapshot.offset = some X ∧
      (build_resume_snapshot true
          (resume_step (pause_step exPlayingSt 12).fst 50).fst.pb 50).map
          Snapshot.offset = some X :=
  c4_pause_resume_roundtrip exPlayingSt exMeta 2 12 50 rfl rfl rfl rfl

/-- C5: when the freshly resolved metadata is not resumable, the snapshot
applier does not fail: it sends the degraded-start warning, starts
playback at offset 0, and installs fresh metadata with seek_base 0. -/
theorem c5_degraded_start (s : GuildState) (snap : Snapshot)
    (info : ResolvedInfo) (url : String) (now : ℚ)
    (hc : s.connected = true) (hurl : snap.webpage_url = some url)
    (hne : url ≠ "")
    (hnr : ((!info.is_live.getD false) &&
            _is_resumable_protocol info.protocol) = false) :
    resume_from_snapshot s true (some info) true now snap =
      ({ s with transport := .playing,
                pb := some { webpage_url := some (pyOrStr info.webpage_url url)
                             title := some (pyOrStr info.title "Unknown title")
                             duration := info.duration
                             started_at := some now
                             seek_base := 0
                             paused_at := none
                             is_live := info.is_live.getD false
                             protocol := info.protocol
                             extractor := info.extractor
                             id := info.id } },
       [.send .degradedStart, .startPlayback (some 0), .send .resumedAt]) := by
  simp only [resume_from_snapshot, hc, hurl, hnr, Bool.not_true,
    Bool.false_and, Bool.false_eq_true, if_false, if_neg hne]
  rfl

/-- C5 witness: a live stream resolved for a snapshot at offset 37 starts
degraded from offset 0. -/
theorem c5_degraded_start_witness :
    resume_from_snapshot
      { connected := true, transport := .idle, queue := [], pb := none,
        lockHeld := false } true
      (some { webpage_url := some "w", title := some "Live", duration := none,
              is_live := some true, protocol := some "m3u8_native",
              extractor := none, id := none }) true 9
      { webpage_url := some "w", title := some "Live", duration := none,
        offset := 37, resumable := true, extractor := none, id := none } =
      ({ connected := true, transport := .playing, queue := [],
         pb := some { webpage_url := some "w", title := some "Live",
                      duration := none, started_at := some 9, seek_base := 0,
                      paused_at := none, is_live := true,
                      protocol := some "m3u8_native", extractor := none,
                      id := none },
         lockHeld := false },
       [.send .degradedStart, .startPlayback (some 0), .send .resumedAt]) :=
  c5_degraded_start
    { connected := true, transport := .idle, queue := [], pb := none,
      lockHeld := false }
    { webpage_url := some "w", title := some "Live", duration := none,
      offset := 37, resumable := true, extractor := none, id := none }
    { webpage_url := some "w", title := some "Live", duration := none,
      is_live := some true, protocol := some "m3u8_native", extractor := none,
      id := none }
    "w" 9 rfl rfl (by decide) rfl

/-- The snapshot applier either leaves the stored metadata untouched (on
any failure path) or installs fresh metadata whose paused_at is cleared. -/
theorem rfs_pb_unchanged_or_cleared (s : GuildState) (aiv : Bool)
    (res : Option ResolvedInfo) (pok : Bool) (now : ℚ) (snap : Snapshot) :
    (resume_from_snapshot s aiv res pok now snap).fst.pb = s.pb ∨
    (resume_from_snapshot s aiv res pok now snap).fst.pb.map
      PlaybackMeta.paused_at = some none := by
  rcases s with ⟨c, tr, q, pb, lk⟩
  simp only [resume_from_snapshot]
  repeat' split
  all_goals first
    | exact Or.inl rfl
    | exact Or.inr rfl

/-- C6 counterexample: the reachable trace play, pause at 5, stop leaves
paused_at = 5 recorded while the transport reports idle, so pausedAt is
not set only while the transport reports paused and stop does leave it
set while the transport is not paused. -/
theorem c6_counterexample :
    ((stop_step (pause_step (play_cmd init0 true [exTrack] exInfo 0).fst
        5).fst).fst.pb.map PlaybackMeta.paused_at) = some (some 5) ∧
    (stop_step (pause_step (play_cmd init0 true [exTrack] exInfo 0).fst
        5).fst).fst.transport = Transport.idle ∧
    Transport.idle ≠ Transport.paused := by
  refine ⟨rfl, rfl, by decide⟩

/-- C6 amended: pausedAt is recorded by pause while the transport moves
playing to paused; resume clears it and resumes; a fresh play-start and a
successful snapshot resume install metadata with it cleared; but stop
leaves the metadata untouched, so a stale pausedAt survives a stop while
the transport is no longer paused. -/
theorem c6_paused_at_lifecycle (sp sq sr : GuildState) (m mq : PlaybackMeta)
    (track : Track) (info : ResolvedInfo) (aiv pok : Bool)
    (res : Option ResolvedInfo) (snap : Snapshot) (now : ℚ)
    (hcp : sp.connected = true) (htp : sp.transport = .playing)
    (hmp : sp.pb = some m)
    (hcq : sq.connected = true) (htq : sq.transport = .paused)
    (hmq : sq.pb = some mq) :
    ((pause_step sp now).fst.pb = some { m with paused_at := some now } ∧
     (pause_step sp now).fst.transport = .paused) ∧
    ((resume_step sq now).fst.pb.map PlaybackMeta.paused_at = some none ∧
     (resume_step sq now).fst.transport = .playing) ∧
    ((play_track sr track info now).fst.pb.map PlaybackMeta.paused_at
        = some none) ∧
    ((resume_from_snapshot sr aiv res pok now snap).fst.pb = sr.pb ∨
     (resume_from_snapshot sr aiv res pok now snap).fst.pb.map
        PlaybackMeta.paused_at = some none) ∧
    ((stop_step sq).fst.pb = sq.pb ∧ (stop_step sq).fst.transport = .idle) := by
  refine ⟨?_, ?_, rfl, rfs_pb_unchanged_or_cleared sr aiv res pok now snap, ?_⟩
  · rcases sp with ⟨c, tr, q, pb, lk⟩
    simp only at hcp htp hmp
    subst hcp htp hmp
    exact ⟨rfl, rfl⟩
  · rcases sq with ⟨c, tr, q, pb, lk⟩
    simp only at hcq htq hmq
    subst hcq htq hmq
    rcases mq with ⟨w, ti, d, sa, sb, pa, il, pr, ex, idf⟩
    rcases pa with _ | p <;> rcases sa with _ | a <;>
      exact ⟨rfl, rfl⟩
  · rcases sq with ⟨c, tr, q, pb, lk⟩
    simp only at hcq htq hmq
    subst hcq htq
    exact ⟨rfl, rfl⟩

/-- C6 witness: the lifecycle facts at concrete playing and paused
states. -/
theorem c6_paused_at_lifecycle_witness :
    ((pause_step exPlayingSt 5).fst.pb =
        some { exMeta with paused_at := some 5 } ∧
     (pause_step exPlayingSt 5).fst.transport = .paused) ∧
    ((resume_step exPausedSt 5).fst.pb.map PlaybackMeta.paused_at
        = some none ∧
     (resume_step exPausedSt 5).fst.transport = .playing) ∧
    ((play_track init0 exTrack exInfo 5).fst.pb.map PlaybackMeta.paused_at
        = some none) ∧
    ((resume_from_snapshot init0 true none true 5 exSnap).fst.pb
        = init0.pb ∨
     (resume_from_snapshot init0 true none true 5 exSnap).fst.pb.map
        PlaybackMeta.paused_at = some none) ∧
    ((stop_step exPausedSt).fst.pb = exPausedSt.pb ∧
     (stop_step exPausedSt).fst.transport = .idle) :=
  c6_paused_at_lifecycle exPlayingSt exPausedSt init0 exMeta exMetaPaused
    exTrack exInfo true true none exSnap 5 rfl rfl rfl rfl rfl rfl

/-- Decimal value of a digit string, most significant digit first. -/
def digitsVal (l : List Char) : ℕ :=
  l.foldl (fun a c => 10 * a + (c.toNat - '0'.toNat)) 0

/-- All characters are ASCII decimal digits (the relevant fragment of the
regex digit class). -/
def allDigits (l : List Char) : Bool := l.all Char.isDigit

/-- Split a character list on a separator, keeping empty groups, as the
Python split method does. -/
def splitOnChar (sep : Char) : List Char → List (List Char)
  | [] => [[]]
  | c :: rest =>
    match splitOnChar sep rest with
    | [] => [[]]
    | grp :: grps => if c = sep then [] :: grp :: grps else (c :: grp) :: grps

/-- Music._parse_time_to_seconds on the character list of the input:
strip, then accept a plain digit string as seconds, or one colon with a
one-or-two-digit last field as minutes:seconds, or two colons with
two-digit fields as hours:minutes:seconds. -/
def parse_time_chars (l0 : List Char) : Option ℚ :=
  let l := trimWS l0
  if l ≠ [] ∧ allDigits l then some ((digitsVal l : ℕ) : ℚ)
  else
    match splitOnChar ':' l with
    | [a, b] =>
      if a ≠ [] ∧ allDigits a ∧ b ≠ [] ∧ b.length ≤ 2 ∧ allDigits b then
        some (((60 * digitsVal a + digitsVal b : ℕ) : ℚ))
      else none
    | [a, b, c] =>
      if a ≠ [] ∧ allDigits a ∧ b.length = 2 ∧ allDigits b ∧
          c.length = 2 ∧ allDigits c then
        some (((3600 * digitsVal a + 60 * digitsVal b + digitsVal c : ℕ) : ℚ))
      else none
    | _ => none

/-- Music._parse_time_to_seconds. -/
def _parse_time_to_seconds (s : String) : Option ℚ :=
  parse_time_chars s.toList

/-- The decimal-literal fragment of the Python float constructor used for
the percentage argument: optional sign, digits with an optional fraction
part.  Scientific notation, inf and nan are not modelled; a failure
models the ValueError path. -/
def parseDecimal (l0 : List Char) : Option ℚ :=
  let sgnAndRest : ℚ × List Char :=
    match l0 with
    | '+' :: r => (1, r)
    | '-' :: r => (-1, r)
    | r => (1, r)
  let sgn := sgnAndRest.fst
  let l := sgnAndRest.snd
  match splitOnChar '.' l with
  | [a] => if a ≠ [] ∧ allDigits a then some (sgn * ((digitsVal a : ℕ) : ℚ))
           else none
  | [a, b] =>
    if (a ≠ [] ∨ b ≠ []) ∧ allDigits a ∧ allDigits b then
      some (sgn * (((digitsVal a : ℕ) : ℚ) +
        ((digitsVal b : ℕ) : ℚ) / (10 : ℚ) ^ b.length))
    else none
  | _ => none

/-- The seek argument after position.strip() and removal of all spaces. -/
def cleanArg (s : String) : List Char :=
  (trimWS s.toList).filter (fun c => c ≠ ' ')

/-- The outcome of parsing a seek expression against the current offset
and duration (the body of the try block in Music.seek). -/
inductive SeekCompute where
  | pctUnknown
  | pctRange
  | invalidTime
  | invalidValue
  | raw (t : ℚ)
deriving DecidableEq

/-- Lines 585 to 615 of Music.seek: classify and evaluate the cleaned
argument, before any bounds are applied.  A percentage requires a known
duration and a value between 0 and 100; a leading plus or minus applies
the parsed time relative to the current offset; otherwise the argument is
an absolute time. -/
def seek_parse_offset (arg : String) (cur : ℚ) (dur : Option ℚ) :
    SeekCompute :=
  let l := cleanArg arg
  if l.getLast? = some '%' then
    match dur with
    | none => .pctUnknown
    | some d =>
      match parseDecimal l.dropLast with
      | none => .invalidValue
      | some pct =>
        if 0 ≤ pct ∧ pct ≤ 100 then .raw (d * (pct / 100)) else .pctRange
  else
    match l with
    | '+' :: rest =>
      match parse_time_chars rest with
      | none => .invalidTime
      | some secs => .raw (cur + secs)
    | '-' :: rest =>
      match parse_time_chars rest with
      | none => .invalidTime
      | some secs => .raw (cur - secs)
    | other =>
      match parse_time_chars other with
      | none => .invalidTime
      | some secs => .raw secs

/-- The bounds step of Music.seek: clamp to [0, duration - 1/4] when the
duration is known, and below at 0 otherwise. -/
def seek_bound (t : ℚ) (dur : Option ℚ) : ℚ :=
  match dur with
  | some d => max 0 (min (d - 1/4) t)
  | none => max 0 t

/-- The full target-offset computation of Music.seek: parse, evaluate and
clamp; none models every rejection path. -/
def seek_target (arg : String) (cur : ℚ) (dur : Option ℚ) : Option ℚ :=
  match seek_parse_offset arg cur dur with
  | .raw t => some (seek_bound t dur)
  | _ => none

/-- Music.seek as a state transformer: precondition checks, snapshot
capture, resumability refusal, parse, bounds, the near-position no-op,
and otherwise stop plus resume_from_snapshot at the overridden offset. -/
def seek_step (s : GuildState) (arg : String) (author_in_voice : Bool)
    (resolve : Option ResolvedInfo) (play_ok : Bool) (now : ℚ) :
    GuildState × List Action :=
  if s.connected = false ∨ s.pb = none then (s, [.send .nothingToSeek])
  else
    match build_resume_snapshot true s.pb now with
    | none => (s, [.send .cannotCapture])
    | some snap =>
      if !snap.resumable then (s, [.send .notSeekableLive])
      else
        match seek_parse_offset arg snap.offset snap.duration with
        | .pctUnknown => (s, [.send .pctUnknownDuration])
        | .pctRange => (s, [.send .pctOutOfRange])
        | .invalidTime => (s, [.send .invalidTime])
        | .invalidValue => (s, [.send .invalidValue])
        | .raw t0 =>
          let t := seek_bound t0 snap.duration
          if |t - snap.offset| < 1/4 then (s, [.send .alreadyNear])
          else
            let active := s.transport = .playing || s.transport = .paused
            let s1 := if active then { s with transport := .idle } else s
            let acts1 : List Action := if active then [.stopTransport] else []
            let r := resume_from_snapshot s1 author_in_voice resolve play_ok
              now { snap with offset := t }
            (r.fst, acts1 ++ r.snd)

/-- The tail of Speak.say after the interrupt decision: build the TTS
source (tts_ok models success), play it and register the completion
handler that will later resume the snapshot; on failure report and, when
a snapshot was captured, resume it at once. -/
def say_tts (s : GuildState) (acts : List Action) (snap? : Option Snapshot)
    (tts_ok : Bool) (resolve : Option ResolvedInfo) (play_ok : Bool)
    (now : ℚ) : GuildState × List Action :=
  if !tts_ok then
    match snap? with
    | some snap =>
      let r := resume_from_snapshot s true resolve play_ok now snap
      (r.fst, acts ++ [.send .couldNotGenerate] ++ r.snd)
    | none => (s, acts ++ [.send .couldNotGenerate])
  else
    ({ s with transport := .playing },
     acts ++ [.playTTS, .send .spokenText] ++
       (match snap? with
        | some snap => [.scheduleResume snap]
        | none => []))

/-- Speak.say: requires the caller in voice; connects if needed; when the
transport is playing it captures a snapshot and refuses the interruption
if the snapshot is truthy but not resumable, stopping the transport
otherwise; when the transport is not playing it proceeds directly to the
TTS playback with no snapshot and no stop. -/
def say_step (s : GuildState) (author_in_voice tts_ok : Bool)
    (resolve : Option ResolvedInfo) (play_ok : Bool) (now : ℚ) :
    GuildState × List Action :=
  if !author_in_voice then (s, [.send .joinVoiceFirst])
  else
    let connActs : List Action := if !s.connected then [.connect] else []
    let s := if !s.connected then { s with connected := true } else s
    if s.transport = .playing then
      match build_resume_snapshot true s.pb now with
      | none =>
        say_tts { s with transport := .idle }
          (connActs ++ [.send .couldNotCaptureSpeak, .stopTransport]) none
          tts_ok resolve play_ok now
      | some snap =>
        if !snap.resumable then (s, connActs ++ [.send .willNotInterrupt])
        else
          say_tts { s with transport := .idle } (connActs ++ [.stopTransport])
            (some snap) tts_ok resolve play_ok now
    else say_tts s connActs none tts_ok resolve play_ok now

/-- A decimal digit is not whitespace. -/
theorem digit_not_ws (c : Char) (h : c.isDigit = true) : isWS c = false := by
  rcases eq_or_ne c ' ' with rfl | h1
  · exact absurd h (by decide)
  rcases eq_or_ne c '\t' with rfl | h2
  · exact absurd h (by decide)
  rcases eq_or_ne c '\n' with rfl | h3
  · exact absurd h (by decide)
  rcases eq_or_ne c '\r' with rfl | h4
  · exact absurd h (by decide)
  rcases eq_or_ne c '\x0b' with rfl | h5
  · exact absurd h (by decide)
  rcases eq_or_ne c '\x0c' with rfl | h6
  · exact absurd h (by decide)
  simp [isWS, h1, h2, h3, h4, h5, h6]

/-- dropWhile is the identity on a list with no whitespace. -/
theorem dropWhile_isWS_of_forall (l : List Char)
    (h : ∀ c ∈ l, isWS c = false) : l.dropWhile isWS = l := by
  cases l with
  | nil => rfl
  | cons c t =>
    have hc := h c (List.mem_cons_self c t)
    simp [List.dropWhile_cons, hc]

/-- Stripping is the identity on a list with no whitespace. -/
theorem trimWS_of_forall (l : List Char) (h : ∀ c ∈ l, isWS c = false) :
    trimWS l = l := by
  unfold trimWS
  rw [dropWhile_isWS_of_forall l h,
    dropWhile_isWS_of_forall l.reverse
      (fun c hc => h c (List.mem_reverse.mp hc)),
    List.reverse_reverse]

/-- Splitting a list that does not contain the separator yields one
group. -/
theorem splitOnChar_of_not_mem (sep : Char) (l : List Char) (h : sep ∉ l) :
    splitOnChar sep l = [l] := by
  induction l with
  | nil => rfl
  | cons c t ih =>
    have hct : sep ∉ t := fun hm => h (List.mem_cons_of_mem c hm)
    have hcs : c ≠ sep := fun e => h (e ▸ List.mem_cons_self c t)
    simp [splitOnChar, ih hct, hcs]

/-- Splitting a list with exactly one separator yields the two
surrounding groups. -/
theorem splitOnChar_append (sep : Char) (a b : List Char)
    (ha : sep ∉ a) (hb : sep ∉ b) :
    splitOnChar sep (a ++ sep :: b) = [a, b] := by
  induction a with
  | nil => simp [splitOnChar, splitOnChar_of_not_mem sep b hb]
  | cons c t ih =>
    have hct : sep ∉ t := fun hm => ha (List.mem_cons_of_mem c hm)
    have hcs : c ≠ sep := fun e => ha (e ▸ List.mem_cons_self c t)
    simp [splitOnChar, ih hct, hcs]

/-- C10: the time parser accepts any M:SS colon form whose last field has
one or two digits and returns 60 times the minutes value plus the
seconds value, with no check that the seconds field is below 60. -/
theorem c10_colon_parse_no_validation (a b : List Char)
    (ha : a ≠ []) (ha2 : allDigits a = true)
    (hb1 : b ≠ []) (hb2 : b.length ≤ 2) (hb3 : allDigits b = true) :
    _parse_time_to_seconds ⟨a ++ ':' :: b⟩ =
      some (((60 * digitsVal a + digitsVal b : ℕ) : ℚ)) := by
  have hda : ∀ c ∈ a, c.isDigit = true := List.all_eq_true.mp ha2
  have hdb : ∀ c ∈ b, c.isDigit = true := List.all_eq_true.mp hb3
  have hws : ∀ c ∈ a ++ ':' :: b, isWS c = false := by
    intro c hc
    rcases List.mem_append.mp hc with h | h
    · exact digit_not_ws c (hda c h)
    · rcases List.mem_cons.mp h with rfl | h
      · decide
      · exact digit_not_ws c (hdb c h)
  have hca : ':' ∉ a := fun hm => absurd (hda ':' hm) (by decide)
  have hcb : ':' ∉ b := fun hm => absurd (hdb ':' hm) (by decide)
  have hnotall : ¬ (a ++ ':' :: b ≠ [] ∧ allDigits (a ++ ':' :: b) = true) := by
    rintro ⟨-, hall⟩
    exact absurd (List.all_eq_true.mp hall ':' (by simp)) (by decide)
  show parse_time_chars (a ++ ':' :: b) = _
  unfold parse_time_chars
  rw [trimWS_of_forall _ hws]
  rw [if_neg hnotall]
  rw [splitOnChar_append ':' a b hca hcb]
  show (if a ≠ [] ∧ allDigits a = true ∧ b ≠ [] ∧ b.length ≤ 2 ∧
      allDigits b = true then
      some (((60 * digitsVal a + digitsVal b : ℕ) : ℚ)) else none) = _
  rw [if_pos ⟨ha, ha2, hb1, hb2, hb3⟩]

/-- C10 witness: 1:99 parses to 159 seconds instead of being rejected. -/
theorem c10_colon_parse_witness :
    _parse_time_to_seconds "1:99" = some 159 := by
  have h := c10_colon_parse_no_validation ['1'] ['9', '9'] (by decide)
    (by decide) (by decide) (by decide) (by decide)
  have h' : _parse_time_to_seconds "1:99" =
      some (((60 * digitsVal ['1'] + digitsVal ['9', '9'] : ℕ) : ℚ)) := h
  rw [h', show (60 * digitsVal ['1'] + digitsVal ['9', '9'] : ℕ) = 159
    from by decide]
  norm_num

/-- C7 counterexample: with duration 100 and current offset 80, the
request -50 is a relative seek and the target computation yields 30, not
0, so the request -50 does not yield 0 regardless of the current
offset. -/
theorem c7_counterexample :
    seek_target "-50" 80 (some 100) = some 30 ∧ (30 : ℚ) ≠ 0 := by
  constructor
  · have h : seek_target "-50" 80 (some 100)
        = some (max 0 (min ((100 : ℚ) - 1/4) (80 - ((50 : ℕ) : ℚ)))) := rfl
    rw [h]
    norm_num
  · norm_num

/-- C7 amended: with duration 100, the request 150 yields target
duration minus a quarter second for every current offset, and the
request -50 is relative, yielding the current offset minus 50 clamped
below at 0 (which is 0 exactly when the current offset is at most 50). -/
theorem c7_clamp_targets (cur : ℚ) (h : cur ≤ 100 - 1/4) :
    seek_target "150" cur (some 100) = some (100 - 1/4) ∧
    seek_target "-50" cur (some 100) = some (max 0 (cur - 50)) := by
  constructor
  · have h1 : seek_target "150" cur (some 100)
        = some (max 0 (min ((100 : ℚ) - 1/4) (((150 : ℕ) : ℚ)))) := rfl
    rw [h1]
    norm_num
  · have h2 : seek_target "-50" cur (some 100)
        = some (max 0 (min ((100 : ℚ) - 1/4) (cur - ((50 : ℕ) : ℚ)))) := rfl
    rw [h2, show ((50 : ℕ) : ℚ) = 50 from by norm_num,
      min_eq_right (by linarith)]

/-- C7 witness: from current offset 40 the request 150 targets 99.75 and
the request -50 targets 0. -/
theorem c7_clamp_targets_witness :
    seek_target "150" 40 (some 100) = some (100 - 1/4) ∧
    seek_target "-50" 40 (some 100) = some (max 0 ((40 : ℚ) - 50)) :=
  c7_clamp_targets 40 (by norm_num)

/-- The percentage branch of the seek parser: with a known duration and a
percentage value between 0 and 100 the raw target is duration times the
percentage over 100. -/
theorem pct_branch_eval (p : List Char) (P cur D : ℚ)
    (hclean : cleanArg ⟨p ++ ['%']⟩ = p ++ ['%'])
    (hp : parseDecimal p = some P) (h0 : 0 ≤ P) (h100 : P ≤ 100) :
    seek_parse_offset ⟨p ++ ['%']⟩ cur (some D) = .raw (D * (P / 100)) := by
  simp only [seek_parse_offset, hclean, List.getLast?_concat,
    List.dropLast_concat, hp, if_true]
  rw [if_pos ⟨h0, h100⟩]

/-- A concrete metadata record with unknown duration, otherwise as
exMeta. -/
def exMetaNoDur : PlaybackMeta := { exMeta with duration := none }

/-- A connected playing state on the unknown-duration track. -/
def exPlayingNoDurSt : GuildState :=
  { connected := true, transport := .playing, queue := [],
    pb := some exMetaNoDur, lockHeld := false }

/-- C8: a percentage seek with known duration D computes the raw target
D times P over 100; concretely 50 percent of duration 200 targets 100;
and on a track with unknown duration any percentage argument is rejected
with the duration-unknown message, with no transport action and no state
change. -/
theorem c8_percentage_seek (p : List Char) (P cur D cur2 : ℚ)
    (s : GuildState) (m : PlaybackMeta) (snap : Snapshot) (arg : String)
    (aiv pok : Bool) (res : Option ResolvedInfo) (now : ℚ)
    (hclean : cleanArg ⟨p ++ ['%']⟩ = p ++ ['%'])
    (hp : parseDecimal p = some P) (h0 : 0 ≤ P) (h100 : P ≤ 100)
    (hc : s.connected = true) (hm : s.pb = some m)
    (hsnap : build_resume_snapshot true s.pb now = some snap)
    (hres : snap.resumable = true) (hdur : snap.duration = none)
    (harg : (cleanArg arg).getLast? = some '%') :
    seek_parse_offset ⟨p ++ ['%']⟩ cur (some D) = .raw (D * (P / 100)) ∧
    seek_target "50%" cur2 (some 200) = some 100 ∧
    seek_step s arg aiv res pok now = (s, [.send .pctUnknownDuration]) := by
  refine ⟨pct_branch_eval p P cur D hclean hp h0 h100, ?_, ?_⟩
  · have h2 := pct_branch_eval ['5', '0'] (1 * ((50 : ℕ) : ℚ)) cur2 200 rfl
      rfl (by norm_num) (by norm_num)
    unfold seek_target
    rw [show ("50%" : String) = (⟨['5', '0'] ++ ['%']⟩ : String) from rfl, h2]
    show some (seek_bound (200 * ((1 * ((50 : ℕ) : ℚ)) / 100)) (some 200))
        = some 100
    simp only [seek_bound]
    norm_num
  · have hpb : ¬ (s.connected = false ∨ s.pb = none) := by
      rintro (h | h)
      · rw [hc] at h; exact absurd h (by decide)
      · rw [h] at hm; exact absurd hm (by simp)
    unfold seek_step
    rw [if_neg hpb]
    simp only [hsnap, hres, Bool.not_true, Bool.false_eq_true, if_false]
    simp only [seek_parse_offset, harg, if_true, hdur]

/-- C8 witness: the percentage facts at 50 percent, duration 200, and
the rejection on the concrete unknown-duration playing state. -/
theorem c8_percentage_seek_witness :
    seek_parse_offset ⟨['5', '0'] ++ ['%']⟩ 7 (some 200)
        = .raw (200 * ((1 * ((50 : ℕ) : ℚ)) / 100)) ∧
    seek_target "50%" 7 (some 200) = some 100 ∧
    seek_step exPlayingNoDurSt "50%" true none true 20
        = (exPlayingNoDurSt, [.send .pctUnknownDuration]) :=
  c8_percentage_seek ['5', '0'] (1 * ((50 : ℕ) : ℚ)) 7 200 7
    exPlayingNoDurSt exMetaNoDur
    ⟨some "u", some "t", none, 30 + max 0 (20 - 2), true, none, none⟩
    "50%" true true none 20 rfl rfl (by norm_num) (by norm_num) rfl rfl rfl
    rfl rfl rfl

/-- The current playback record for the near-seek facts: paused at 12
with seek_base 30, so the snapshot offset is 40. -/
def c9Meta : PlaybackMeta := { exMeta with paused_at := some 12 }

/-- The paused state holding c9Meta. -/
def c9St : GuildState :=
  { connected := true, transport := .paused, queue := [], pb := some c9Meta,
    lockHeld := false }

/-- C9 counterexample: at current snapshot offset 40 the request 40.1 is
rejected by the time parser with the invalid-time message, not reported
as already near position, because the parser accepts no decimal point. -/
theorem c9_counterexample :
    (build_resume_snapshot true c9St.pb 20).map Snapshot.offset
        = some (max 0 (min ((30 : ℚ) + max 0 (12 - 2)) (100 - 1/4))) ∧
    max 0 (min ((30 : ℚ) + max 0 (12 - 2)) (100 - 1/4)) = 40 ∧
    seek_step c9St "40.1" true none true 20 = (c9St, [.send .invalidTime]) ∧
    Msg.invalidTime ≠ Msg.alreadyNear := by
  refine ⟨rfl, ?_, rfl, by decide⟩
  rw [show max (0 : ℚ) (12 - 2) = 10 from by rw [max_def]; norm_num]
  rw [min_def, max_def]
  norm_num

/-- C9 amended: whenever the computed and clamped target differs from
the current snapshot offset by less than a quarter second, seek reports
already-near and performs no transport action and no state change. -/
theorem c9_near_noop (s : GuildState) (arg : String) (now t0 : ℚ)
    (snap : Snapshot) (aiv pok : Bool) (res : Option ResolvedInfo)
    (hc : s.connected = true)
    (hsnap : build_resume_snapshot true s.pb now = some snap)
    (hres : snap.resumable = true)
    (hparse : seek_parse_offset arg snap.offset snap.duration = .raw t0)
    (hnear : |seek_bound t0 snap.duration - snap.offset| < 1/4) :
    seek_step s arg aiv res pok now = (s, [.send .alreadyNear]) := by
  have hpb : ¬ (s.connected = false ∨ s.pb = none) := by
    rintro (h | h)
    · rw [hc] at h; exact absurd h (by decide)
    · rw [h] at hsnap
      exact absurd hsnap (by simp [build_resume_snapshot])
  unfold seek_step
  rw [if_neg hpb]
  simp only [hsnap, hres, hparse, Bool.not_true, Bool.false_eq_true, if_false]
  rw [if_pos hnear]

/-- C9 witness: from snapshot offset 40 the request 40 targets 40 and is
reported as already near. -/
theorem c9_near_noop_witness :
    seek_step c9St "40" true none true 20 = (c9St, [.send .alreadyNear]) :=
  c9_near_noop c9St "40" 20 ((40 : ℕ) : ℚ)
    ⟨some "u", some "t", some 100,
     max 0 (min (30 + max 0 (12 - 2)) (100 - 1/4)), true, none, none⟩
    true true none rfl rfl rfl rfl
    (by simp only [seek_bound, min_def, max_def]; norm_num)

/-- The metadata of a segmented-live track, paused at 10. -/
def exMetaHls : PlaybackMeta :=
  { exMeta with protocol := some "m3u8_native", paused_at := some 10 }

/-- A paused state on the segmented-live track. -/
def exPausedHlsSt : GuildState :=
  { connected := true, transport := .paused, queue := [],
    pb := some exMetaHls, lockHeld := false }

/-- The metadata of a segmented-live track while playing. -/
def exMetaHlsPlaying : PlaybackMeta :=
  { exMeta with protocol := some "m3u8_native" }

/-- A playing state on the segmented-live track. -/
def exPlayingHlsSt : GuildState :=
  { connected := true, transport := .playing, queue := [],
    pb := some exMetaHlsPlaying, lockHeld := false }

/-- C3 counterexample: with a non-resumable track paused, the say command
does not refuse: it skips the snapshot check entirely (the snapshot is
only built while playing) and starts the TTS stream, a transport
mutation, with no refusal message. -/
theorem c3_counterexample :
    (build_resume_snapshot true exPausedHlsSt.pb 20).map Snapshot.resumable
        = some false ∧
    say_step exPausedHlsSt true true none true 20 =
      ({ exPausedHlsSt with transport := .playing },
       [.playTTS, .send .spokenText]) ∧
    Action.send .willNotInterrupt ∉
      ([.playTTS, .send .spokenText] : List Action) := by
  refine ⟨rfl, rfl, by decide⟩

/-- C3 amended: for a track whose snapshot is not resumable, the seek
command refuses with a message and no transport action in every
transport state, and the say command refuses likewise when the transport
is playing (while paused, say bypasses the snapshot check). -/
theorem c3_nonresumable_refusal (sq sp : GuildState) (snapq snapp : Snapshot)
    (arg : String) (aiv tts pok : Bool) (res : Option ResolvedInfo)
    (now now2 : ℚ)
    (hcq : sq.connected = true)
    (hsq : build_resume_snapshot true sq.pb now = some snapq)
    (hrq : snapq.resumable = false)
    (hcp : sp.connected = true) (htp : sp.transport = .playing)
    (hsp : build_resume_snapshot true sp.pb now2 = some snapp)
    (hrp : snapp.resumable = false) :
    seek_step sq arg aiv res pok now = (sq, [.send .notSeekableLive]) ∧
    say_step sp true tts res pok now2 = (sp, [.send .willNotInterrupt]) := by
  constructor
  · have hpb : ¬ (sq.connected = false ∨ sq.pb = none) := by
      rintro (h | h)
      · rw [hcq] at h; exact absurd h (by decide)
      · rw [h] at hsq
        exact absurd hsq (by simp [build_resume_snapshot])
    unfold seek_step
    rw [if_neg hpb]
    simp only [hsq, hrq, Bool.not_false, if_true]
  · unfold say_step
    simp only [hcp, htp, Bool.not_true, Bool.false_eq_true, if_false,
      hsp, hrp, Bool.not_false, if_true, List.nil_append]

/-- C3 witness: the refusals at concrete paused and playing states whose
protocol is a segmented-live family. -/
theorem c3_nonresumable_refusal_witness :
    seek_step exPausedHlsSt "90" true none true 20
        = (exPausedHlsSt, [.send .notSeekableLive]) ∧
    say_step exPlayingHlsSt true true none true 20
        = (exPlayingHlsSt, [.send .willNotInterrupt]) :=
  c3_nonresumable_refusal exPausedHlsSt exPlayingHlsSt
    ⟨some "u", some "t", some 100,
     max 0 (min (30 + max 0 (10 - 2)) (100 - 1/4)), false, none, none⟩
    ⟨some "u", some "t", some 100,
     max 0 (min (30 + max 0 (20 - 2)) (100 - 1/4)), false, none, none⟩
    "90" true true true none 20 20 rfl rfl rfl rfl rfl rfl rfl

end Bonzi
